import Mathlib

/-!
Verification of the PR/GHI plotting pipeline (`main.py`) against its
specification.  The pipeline loads CSV records of daily irradiation (GHI)
and performance-ratio (PR) readings, inner-joins them on date, filters to
an optional date window, and computes a decaying budget curve, a 30-sample
rolling average, trailing-window averages, an irradiation band per row and
a compliance percentage.

Numeric values (GHI, PR, budget) are modelled as rationals; dates as
(year, month, day) triples of integers with lexicographic order, matching
`datetime`/`pd.Timestamp` comparison semantics.
-/

/-- A calendar date as carried by `pd.Timestamp`: year, month, day. -/
structure Date where
  year : Int
  month : Int
  day : Int
deriving DecidableEq, Repr, Inhabited

/-- A date has a valid month field (1..12); day validity is not needed. -/
def Date.validMonth (d : Date) : Prop := 1 ≤ d.month ∧ d.month ≤ 12

instance (d : Date) : Decidable d.validMonth := by
  unfold Date.validMonth; infer_instance

/-- Lexicographic comparison of dates, as `pd.Timestamp` ordering. -/
def Date.le (a b : Date) : Bool :=
  if a.year ≠ b.year then decide (a.year < b.year)
  else if a.month ≠ b.month then decide (a.month < b.month)
  else decide (a.day ≤ b.day)

theorem Date.le_total (a b : Date) : a.le b = true ∨ b.le a = true := by
  unfold Date.le
  by_cases h1 : a.year = b.year
  · by_cases h2 : a.month = b.month
    · simp [h1, h2]; omega
    · simp [h1, h2, Ne.symm h2]
  · simp [h1, Ne.symm h1]

theorem Date.le_trans {a b c : Date} (h1 : a.le b = true) (h2 : b.le c = true) :
    a.le c = true := by
  unfold Date.le at *
  by_cases e1 : a.year = b.year <;> by_cases e2 : b.year = c.year <;>
    by_cases e3 : a.year = c.year <;> by_cases m1 : a.month = b.month <;>
    by_cases m2 : b.month = c.month <;> by_cases m3 : a.month = c.month <;>
    simp_all <;> omega

theorem Date.le_refl (a : Date) : a.le a = true := by
  unfold Date.le; simp

/-- One row of the combined (merged) series: {Date, GHI, PR}. -/
structure Row where
  date : Date
  ghi : ℚ
  pr : ℚ
deriving DecidableEq, Repr

instance : Inhabited Row := ⟨⟨default, 0, 0⟩⟩

/-- Row order used by `sort_values('Date')`. -/
def rowLe (a b : Row) : Prop := a.date.le b.date = true

instance : DecidableRel rowLe := fun a b => by unfold rowLe; infer_instance

instance : IsTotal Row rowLe := ⟨fun a b => Date.le_total a.date b.date⟩

instance : IsTrans Row rowLe := ⟨fun _ _ _ h1 h2 => Date.le_trans h1 h2⟩

/-- A pandas datetime scalar: either `NaT` or an actual timestamp.
`pd.to_datetime(None)` yields `NaT`, which is distinct from Python's
`None`. -/
inductive PDate where
  | nat : PDate
  | ts : Date → PDate
deriving DecidableEq, Repr

/-- `pd.to_datetime` applied to an optional date: `None` becomes `NaT`. -/
def pdToDatetime : Option Date → PDate
  | none => .nat
  | some d => .ts d

/-- Python truthiness of a pandas datetime scalar: `NaT` is falsy,
timestamps are truthy. -/
def PDate.toBool : PDate → Bool
  | .nat => false
  | .ts _ => true

/-- Extract the date, with a default for the `NaT` case (which is
unreachable on the paths where this is used: a `NaT` bound makes the
selection empty). -/
def PDate.toDateD : PDate → Date → Date
  | .nat, d => d
  | .ts d, _ => d

/-- `date >= bound` elementwise: any comparison against `NaT` is False. -/
def pdGe (d : Date) (b : PDate) : Bool :=
  match b with
  | .nat => false
  | .ts s => s.le d

/-- `date <= bound` elementwise: any comparison against `NaT` is False. -/
def pdLe (d : Date) (b : PDate) : Bool :=
  match b with
  | .nat => false
  | .ts s => d.le s

/-- `fetchCsvData`: given optional (Python-level) start/end bounds and the
rows of `combined.csv`, filter to `start <= Date <= end` when both bounds
are present (`is not None`), else return the whole series; either way the
result is sorted by date. -/
def fetchCsvData (startDate endDate : Option PDate) (csvData : List Row) :
    List Row :=
  match startDate, endDate with
  | some s, some e =>
      List.insertionSort rowLe
        (csvData.filter (fun r => pdGe r.date s && pdLe r.date e))
  | _, _ => List.insertionSort rowLe csvData

/-- The elapsed-years exponent computed by `budgetValues`:
`(date.year - startDate.year) + (date.month - startDate.month) // 12`,
with `//` Python floor division (`Int.fdiv`); `math.floor` of an integer
is the integer itself. -/
def elapsedYears (d s : Date) : Int :=
  (d.year - s.year) + (d.month - s.month).fdiv 12

/-- The elapsed-years formula as the specification words it, with
real-valued division and floors:
`floor((row.year - start.year) + floor((row.month - start.month) / 12))`. -/
def specElapsed (d s : Date) : Int :=
  ⌊((d.year - s.year : Int) : ℚ) +
    ((⌊((d.month - s.month : Int) : ℚ) / 12⌋ : Int) : ℚ)⌋

/-- `budgetValues`: per-row budget `73.9 * (1 - 0.008) ** year`. -/
def budgetValues (csvData : List Row) (startDate : Date) : List ℚ :=
  csvData.map (fun r =>
    (739 / 10 : ℚ) * (1 - 8 / 1000 : ℚ) ^ elapsedYears r.date startDate)

/-- `Series.rolling(window=w).mean()`: entry `i` is the mean of the `w`
values ending at `i`, or missing (`NaN`) while fewer than `w` values have
been seen (`min_periods` defaults to the window size). -/
def rollingMean (w : ℕ) (xs : List ℚ) : List (Option ℚ) :=
  (List.range xs.length).map (fun i =>
    if i + 1 < w then none
    else some (((xs.take (i + 1)).drop (i + 1 - w)).sum / (w : ℚ)))

/-- `Series.tail(k)`: the last `k` values, or all of them when fewer. -/
def tail (k : ℕ) (xs : List ℚ) : List ℚ := xs.drop (xs.length - k)

/-- `Series.mean()`: arithmetic mean. -/
def seriesMean (xs : List ℚ) : ℚ := xs.sum / (xs.length : ℚ)

/-- `(csvData['PR'] > csvData['Budget']).sum()`: the number of aligned
positions where PR strictly exceeds the budget. -/
def pointsAboveBudget (prs budget : List ℚ) : ℕ :=
  ((prs.zip budget).filter (fun p => decide (p.2 < p.1))).length

/-- `pd.cut(ghi, bins=[-inf, 2, 4, 6, inf], labels=[...])` with the
default `right=True`: right-closed bins `(-inf,2], (2,4], (4,6], (6,inf]`,
numbered 1 (navy) to 4 (brown). -/
def cutBand (x : ℚ) : ℕ :=
  if x ≤ 2 then 1 else if x ≤ 4 then 2 else if x ≤ 6 then 3 else 4

/-- Zero-padded two-digit rendering of a month/day field. -/
def pad2 (n : Int) : String :=
  if n < 10 then "0" ++ toString n else toString n

/-- `str(timestamp.date())`: ISO `YYYY-MM-DD`. -/
def Date.iso (d : Date) : String :=
  toString d.year ++ "-" ++ pad2 d.month ++ "-" ++ pad2 d.day

/-- Everything `plotter` computes and hands to the rendering calls, plus
the name of the image file it saves. -/
structure PlotArtifacts where
  rows : List Row
  budget : List ℚ
  pr30avg : List (Option ℚ)
  bands : List ℕ
  pointsAboveBudget : ℕ
  totalPoints : ℕ
  percTotalPoints : ℚ
  avg7 : ℚ
  avg30 : ℚ
  avg60 : ℚ
  avg90 : ℚ
  avg365 : ℚ
  lifetime : ℚ
  fileName : String
deriving Repr, DecidableEq

/-- Outcome of one `plotter` invocation: either the early return with the
"No Data" diagnostic (no chart, no saved file), or a produced plot. -/
inductive PlotterResult where
  | noData : String → PlotterResult
  | plotted : PlotArtifacts → PlotterResult
deriving Repr, DecidableEq

/-- `plotter(startDate, endDate)`: converts its optional arguments with
`pd.to_datetime` (turning `None` into `NaT`), selects the range, returns
early with a diagnostic when the selection is empty, otherwise computes
the rolling average, budget curve, band colors, compliance count and
trailing averages, and saves the plot.  The `not startDate and not
endDate` defaulting branch reads label 0 of the frame (the first row of
`combined.csv`) and `iloc[-1]` (the last row of the selection);
`PDate.toDateD` defaults are only exercised on the unreachable path where
a `NaT` bound survives to a non-empty selection. -/
def plotter (startDate endDate : Option Date) (combined : List Row) :
    PlotterResult :=
  let s := pdToDatetime startDate
  let e := pdToDatetime endDate
  let csvData := fetchCsvData (some s) (some e) combined
  if csvData.length = 0 then
    .noData "No Data for the given Date Range!"
  else
    let s1 := if !s.toBool && !e.toBool then
      PDate.ts (combined.headD default).date else s
    let e1 := if !s.toBool && !e.toBool then
      PDate.ts (csvData.getLastD default).date else e
    let prs := csvData.map Row.pr
    let sd := s1.toDateD default
    let budget := budgetValues csvData sd
    let pab := pointsAboveBudget prs budget
    let total := csvData.length
    PlotterResult.plotted {
      rows := csvData
      budget := budget
      pr30avg := rollingMean 30 prs
      bands := csvData.map (fun r => cutBand r.ghi)
      pointsAboveBudget := pab
      totalPoints := total
      percTotalPoints := ((pab : ℚ) / (total : ℚ)) * 100
      avg7 := seriesMean (tail 7 prs)
      avg30 := seriesMean (tail 30 prs)
      avg60 := seriesMean (tail 60 prs)
      avg90 := seriesMean (tail 90 prs)
      avg365 := seriesMean (tail 365 prs)
      lifetime := seriesMean prs
      fileName := "plot_" ++ (s1.toDateD default).iso ++ "_to_" ++
        (e1.toDateD default).iso ++ ".jpg" }

/-- `str.endswith(suffix)`: the file name's characters end with the
suffix's characters.  (Defined on the character list so that concrete
instances reduce by computation.) -/
def strEndsWith (s suffix : String) : Bool :=
  s.data.drop (s.data.length - suffix.data.length) == suffix.data

/-- A CSV file as a parsed table: a file name plus named columns of cell
strings (`pd.read_csv` output, before date coercion). -/
structure CsvFile where
  name : String
  cols : List (String × List String)
deriving DecidableEq, Repr

/-- Column lookup in a frame, as `tempDf['Date']`. -/
def lookupCol (cols : List (String × List String)) (c : String) :
    Option (List String) :=
  (cols.find? (fun p => p.1 == c)).map Prod.snd

/-- The body of `csvWalker`'s loop for one discovered `.csv` file:
`pd.read_csv` then `pd.to_datetime(tempDf['Date'])`, which raises if the
'Date' column is missing (KeyError) or any date string fails to parse.
The date-string parser (`pd.to_datetime` on strings) is an external
collaborator, passed in as `parse`. -/
def readFrame (parse : String → Option Date) (f : CsvFile) :
    Except String (List Date × CsvFile) :=
  match lookupCol f.cols "Date" with
  | none => .error ("KeyError: Date in " ++ f.name)
  | some cells =>
      match cells.mapM parse with
      | none => .error ("ParseError: unparseable date in " ++ f.name)
      | some ds => .ok (ds, f)

/-- The accumulation loop of `csvWalker`: process the discovered files in
order, stopping at the first one whose frame raises. -/
def collectFrames (parse : String → Option Date) :
    List CsvFile → Except String (List (List Date × CsvFile))
  | [] => .ok []
  | f :: fs =>
      match readFrame parse f with
      | .error e => .error e
      | .ok fr =>
          match collectFrames parse fs with
          | .error e => .error e
          | .ok frs => .ok (fr :: frs)

/-- `csvWalker(dir)`: walk the tree, read every file whose name ends in
'.csv' into a frame (raising on a missing/unparseable 'Date' column), and
`pd.concat` the collected frames — which raises `ValueError: No objects
to concatenate` when no `.csv` file was found. -/
def csvWalker (parse : String → Option Date) (files : List CsvFile) :
    Except String (List (List Date × CsvFile)) :=
  match collectFrames parse (files.filter (fun f => strEndsWith f.name ".csv")) with
  | .error e => .error e
  | .ok frames =>
      if frames.isEmpty then
        Except.error "ValueError: No objects to concatenate"
      else
        Except.ok frames

/-- `pd.merge(ghi, pr, on='Date', how='inner')`: for each left row in
order, one output row per right row with an equal date. -/
def mergeRows (ghiData prData : List (Date × ℚ)) : List Row :=
  ghiData.flatMap (fun g =>
    (prData.filter (fun p => p.1 == g.1)).map (fun p => ⟨g.1, g.2, p.2⟩))

/-- `preprocessing`'s merge-and-sort of the two loaded sources (the
`combined.csv` contents). -/
def preprocessing (ghiData prData : List (Date × ℚ)) : List Row :=
  List.insertionSort rowLe (mergeRows ghiData prData)

/-- A one-row combined series used for concrete witnesses. -/
def demoCombined : List Row := [⟨⟨2021, 1, 1⟩, 3, 75⟩]

/-- What `plotter` computes on `demoCombined` over the one-day window
2021-01-01..2021-01-01 (the `noData` branch of the match is not taken:
the selection is non-empty). -/
def demoArtifact : PlotArtifacts :=
  match plotter (some ⟨2021, 1, 1⟩) (some ⟨2021, 1, 1⟩) demoCombined with
  | .plotted a => a
  | .noData _ => ⟨[], [], [], [], 0, 0, 0, 0, 0, 0, 0, 0, 0, ""⟩

/-- A concrete date-string parser standing in for `pd.to_datetime` on
strings, used for concrete witnesses. -/
def demoParse : String → Option Date :=
  fun s => if s = "2021-01-01" then some ⟨2021, 1, 1⟩ else none

/-! ## Supporting lemmas -/

/-- The spec's floor-of-real-division elapsed-years formula agrees with
the integer arithmetic the code performs. -/
theorem specElapsed_eq_elapsedYears (d s : Date) :
    specElapsed d s = elapsedYears d s := by
  unfold specElapsed elapsedYears
  rw [show ((12 : ℚ)) = ((12 : ℕ) : ℚ) by norm_num,
    Rat.floor_intCast_div_natCast, Int.fdiv_eq_ediv _ (by norm_num)]
  push_cast
  rw [Int.floor_add_int]
  norm_num

/-- For a date at or after the window start (months being valid calendar
months), the elapsed-years exponent is non-negative. -/
theorem elapsedYears_nonneg {d s : Date} (hd : d.validMonth)
    (hs : s.validMonth) (hle : s.le d = true) : 0 ≤ elapsedYears d s := by
  unfold elapsedYears
  rw [Int.fdiv_eq_ediv _ (by norm_num)]
  unfold Date.le at hle
  unfold Date.validMonth at hd hs
  by_cases h1 : s.year = d.year <;> by_cases h2 : s.month = d.month <;>
    simp [h1, h2, Ne.symm] at hle <;> omega

/-! ## Claim theorems -/

/-- C3: for every row of the selected series with window start date `s`,
the computed budget equals `73.9 * (1 - 0.008) ^ e` with
`e = floor((row.year - s.year) + floor((row.month - s.month) / 12))`, and
for any row dated on or after `s` this exponent is non-negative. -/
theorem budget_row_formula (csvData : List Row) (s : Date) (i : ℕ) (r : Row)
    (hr : csvData[i]? = some r) (hd : r.date.validMonth)
    (hs : s.validMonth) :
    (budgetValues csvData s)[i]? =
      some ((739 / 10 : ℚ) * (1 - 8 / 1000 : ℚ) ^ specElapsed r.date s) ∧
    (s.le r.date = true → 0 ≤ specElapsed r.date s) := by
  constructor
  · unfold budgetValues
    rw [List.getElem?_map, hr, specElapsed_eq_elapsedYears]
    rfl
  · intro hle
    rw [specElapsed_eq_elapsedYears]
    exact elapsedYears_nonneg hd hs hle

theorem budget_row_formula_witness :
    ((budgetValues [⟨⟨2022, 3, 5⟩, 3, 75⟩] ⟨2021, 6, 15⟩)[0]? =
      some ((739 / 10 : ℚ) * (1 - 8 / 1000 : ℚ) ^
        specElapsed ⟨2022, 3, 5⟩ ⟨2021, 6, 15⟩) ∧
    (Date.le ⟨2021, 6, 15⟩ ⟨2022, 3, 5⟩ = true →
      0 ≤ specElapsed ⟨2022, 3, 5⟩ ⟨2021, 6, 15⟩)) :=
  budget_row_formula [⟨⟨2022, 3, 5⟩, 3, 75⟩] ⟨2021, 6, 15⟩ 0
    ⟨⟨2022, 3, 5⟩, 3, 75⟩ rfl (by decide) (by decide)

/-- C2 counterexample: the classifier's bins are right-closed, so
`ghi = 2.0` lands in band 1 (not band 2 as claimed) and `ghi = 6.0` lands
in band 3 (not band 4 as claimed). -/
theorem cutBand_boundary_counterexample :
    cutBand 2 = 1 ∧ cutBand 2 ≠ 2 ∧ cutBand 6 = 3 ∧ cutBand 6 ≠ 4 := by
  decide

/-- C2 amended: the classifier is total with four ordered bands, but the
thresholds are right-closed (left-open): `ghi ≤ 2` is band 1,
`2 < ghi ≤ 4` band 2, `4 < ghi ≤ 6` band 3, `ghi > 6` band 4; in
particular `ghi = 2.0` is band 1 and `ghi = 6.0` is band 3. -/
theorem cutBand_total_right_closed (x : ℚ) :
    (cutBand x = 1 ∨ cutBand x = 2 ∨ cutBand x = 3 ∨ cutBand x = 4) ∧
    (x ≤ 2 → cutBand x = 1) ∧
    (2 < x → x ≤ 4 → cutBand x = 2) ∧
    (4 < x → x ≤ 6 → cutBand x = 3) ∧
    (6 < x → cutBand x = 4) := by
  unfold cutBand
  refine ⟨?_, ?_, ?_, ?_, ?_⟩ <;> intros <;> split_ifs <;>
    first
      | tauto
      | linarith

theorem cutBand_total_right_closed_witness :
    cutBand 1 = 1 ∧ cutBand 3 = 2 ∧ cutBand 5 = 3 ∧ cutBand 7 = 4 :=
  ⟨(cutBand_total_right_closed 1).2.1 (by norm_num),
   (cutBand_total_right_closed 3).2.2.1 (by norm_num) (by norm_num),
   (cutBand_total_right_closed 5).2.2.2.1 (by norm_num) (by norm_num),
   (cutBand_total_right_closed 7).2.2.2.2 (by norm_num)⟩

/-- C1: the claim fails on the code.  An absent start/end parameter is
converted by `pd.to_datetime(None)` to `NaT`, which is *not* Python's
`None`, so `fetchCsvData` takes its filtering branch; every comparison
against `NaT` is False, the selection is empty, and `plotter` prints the
"No Data" diagnostic instead of plotting the full series — for the
no-arguments invocation and for each exactly-one-argument invocation,
even on a non-empty combined series. -/
theorem plotter_absent_bounds_no_full_series :
    plotter none none [⟨⟨2021, 1, 1⟩, 3, 75⟩] =
      PlotterResult.noData "No Data for the given Date Range!" ∧
    plotter (some ⟨2021, 1, 1⟩) none [⟨⟨2021, 1, 1⟩, 3, 75⟩] =
      PlotterResult.noData "No Data for the given Date Range!" ∧
    plotter none (some ⟨2021, 1, 1⟩) [⟨⟨2021, 1, 1⟩, 3, 75⟩] =
      PlotterResult.noData "No Data for the given Date Range!" :=
  ⟨rfl, rfl, rfl⟩

/-- C7: whenever the selected range yields zero rows, `plotter` returns
the `noData` diagnostic — a clean early return carrying no budget curve,
no rolling average and no output file name. -/
theorem plotter_empty_selection_clean (startDate endDate : Option Date)
    (combined : List Row)
    (h : fetchCsvData (some (pdToDatetime startDate))
      (some (pdToDatetime endDate)) combined = []) :
    plotter startDate endDate combined =
      PlotterResult.noData "No Data for the given Date Range!" := by
  unfold plotter
  simp [h]

theorem plotter_empty_selection_clean_witness :
    plotter (some ⟨2022, 1, 1⟩) (some ⟨2022, 1, 2⟩) [⟨⟨2021, 1, 1⟩, 3, 75⟩] =
      PlotterResult.noData "No Data for the given Date Range!" :=
  plotter_empty_selection_clean (some ⟨2022, 1, 1⟩) (some ⟨2022, 1, 2⟩)
    [⟨⟨2021, 1, 1⟩, 3, 75⟩] rfl

/-- The compliance count never exceeds the number of PR values. -/
theorem pointsAboveBudget_le_length (prs budget : List ℚ) :
    pointsAboveBudget prs budget ≤ prs.length := by
  unfold pointsAboveBudget
  exact (List.length_filter_le _ _).trans
    (by rw [List.length_zip]; exact min_le_left _ _)

/-- C4: whenever `plotter` produces a plot (so the selected series is
non-empty), the compliance percentage it reports equals
`100 * pointsAboveBudget / totalPoints` and lies in `[0, 100]`. -/
theorem compliance_percentage_bounds (startDate endDate : Option Date)
    (combined : List Row) (a : PlotArtifacts)
    (h : plotter startDate endDate combined = PlotterResult.plotted a) :
    a.percTotalPoints =
      100 * (a.pointsAboveBudget : ℚ) / (a.totalPoints : ℚ) ∧
    0 ≤ a.percTotalPoints ∧ a.percTotalPoints ≤ 100 := by
  unfold plotter at h
  set csvData := fetchCsvData (some (pdToDatetime startDate))
    (some (pdToDatetime endDate)) combined with hcsv
  by_cases hempty : csvData.length = 0
  · simp [← hcsv, hempty] at h
  · simp only [← hcsv, hempty, if_false] at h
    have hpab := pointsAboveBudget_le_length (csvData.map Row.pr)
      (budgetValues csvData
        ((if !(pdToDatetime startDate).toBool && !(pdToDatetime endDate).toBool
          then PDate.ts (combined.headD default).date
          else pdToDatetime startDate).toDateD default))
    rw [List.length_map] at hpab
    set pab := pointsAboveBudget (csvData.map Row.pr) _ with hpabdef
    cases h
    have hn : (0 : ℚ) < (csvData.length : ℚ) := by
      have : 0 < csvData.length := Nat.pos_of_ne_zero hempty
      exact_mod_cast this
    have hc : ((pab : ℚ)) ≤ ((csvData.length : ℚ)) := by exact_mod_cast hpab
    have hc0 : (0 : ℚ) ≤ (pab : ℚ) := by positivity
    refine ⟨by ring, by positivity, ?_⟩
    have hdiv : ((pab : ℚ)) / ((csvData.length : ℚ)) ≤ 1 :=
      (div_le_one hn).mpr hc
    nlinarith

theorem compliance_percentage_bounds_witness :
    demoArtifact.percTotalPoints =
      100 * (demoArtifact.pointsAboveBudget : ℚ) /
        (demoArtifact.totalPoints : ℚ) ∧
    0 ≤ demoArtifact.percTotalPoints ∧ demoArtifact.percTotalPoints ≤ 100 :=
  compliance_percentage_bounds (some ⟨2021, 1, 1⟩) (some ⟨2021, 1, 1⟩)
    demoCombined demoArtifact rfl

/-- C5: the 30-window rolling average of `pr` at 0-based index `i` is
missing (not zero) for `i < 29`, and for `i ≥ 29` equals the mean of the
30 values at indices `i - 29` through `i`. -/
theorem rolling_average_window (xs : List ℚ) (i : ℕ) (h : i < xs.length) :
    (i < 29 → (rollingMean 30 xs)[i]? = some none) ∧
    (29 ≤ i → (rollingMean 30 xs)[i]? =
      some (some (((xs.drop (i - 29)).take 30).sum / (30 : ℚ)))) := by
  unfold rollingMean
  rw [List.getElem?_map, List.getElem?_range h]
  constructor
  · intro hi
    simp only [Option.map_some']
    rw [if_pos (by omega)]
  · intro hi
    simp only [Option.map_some']
    rw [if_neg (by omega), List.drop_take,
      show i + 1 - 30 = i - 29 by omega, show i + 1 - (i - 29) = 30 by omega]
    norm_num

theorem rolling_average_window_witness :
    (30 < 29 →
      (rollingMean 30 (List.replicate 31 (2 : ℚ)))[30]? = some none) ∧
    (29 ≤ 30 → (rollingMean 30 (List.replicate 31 (2 : ℚ)))[30]? =
      some (some ((((List.replicate 31 (2 : ℚ)).drop (30 - 29)).take 30).sum /
        (30 : ℚ)))) :=
  rolling_average_window (List.replicate 31 2) 30 (by simp)

/-- C9: `tail k` keeps exactly the last `min k n` values (all of them when
`n < k`, not an error), so the k-window average is the mean of the last
`min k n` rows, and the lifetime average is the mean over all rows. -/
theorem trailing_window_averages (xs : List ℚ) (k : ℕ)
    (_hk : k ∈ ([7, 30, 60, 90, 365] : List ℕ)) (_hne : xs ≠ []) :
    (tail k xs).length = min k xs.length ∧
    tail k xs = xs.drop (xs.length - min k xs.length) ∧
    (xs.length < k → tail k xs = xs) ∧
    seriesMean xs = xs.sum / (xs.length : ℚ) := by
  refine ⟨?_, ?_, ?_, rfl⟩
  · unfold tail
    rw [List.length_drop]
    omega
  · unfold tail
    congr 1
    omega
  · intro hlt
    unfold tail
    rw [show xs.length - k = 0 by omega, List.drop_zero]

theorem trailing_window_averages_witness :
    (tail 7 [(1 : ℚ), 2]).length = min 7 ([(1 : ℚ), 2]).length ∧
    tail 7 [(1 : ℚ), 2] =
      ([(1 : ℚ), 2]).drop (([(1 : ℚ), 2]).length - min 7 ([(1 : ℚ), 2]).length) ∧
    (([(1 : ℚ), 2]).length < 7 → tail 7 [(1 : ℚ), 2] = [(1 : ℚ), 2]) ∧
    seriesMean [(1 : ℚ), 2] = ([(1 : ℚ), 2]).sum / (([(1 : ℚ), 2]).length : ℚ) :=
  trailing_window_averages [1, 2] 7 (by decide) (by decide)

/-- In the inner join, the number of rows carrying date `d` is the product
of the numbers of rows carrying `d` in the two sources. -/
theorem mergeRows_filter_length (g p : List (Date × ℚ)) (d : Date) :
    ((mergeRows g p).filter (fun r => r.date == d)).length =
      (g.filter (fun x => x.1 == d)).length *
        (p.filter (fun x => x.1 == d)).length := by
  induction g with
  | nil => simp [mergeRows]
  | cons gx g ih =>
    unfold mergeRows at ih ⊢
    simp only [List.flatMap_cons, List.filter_append, List.length_append, ih,
      List.filter_map, List.filter_cons]
    by_cases hgd : gx.1 = d
    · simp [hgd, Function.comp_def]
      ring
    · simp [hgd, Function.comp_def, fun h => hgd (by simpa using h)]

/-- In a source with pairwise-distinct dates, exactly one row carries a
date that is present at all. -/
theorem filter_fst_eq_length_one {l : List (Date × ℚ)} {d : Date}
    (hnd : (l.map Prod.fst).Nodup) (hd : d ∈ l.map Prod.fst) :
    (l.filter (fun x => x.1 == d)).length = 1 := by
  rw [← List.countP_eq_length_filter]
  have hmap : (l.map Prod.fst).count d = l.countP (fun x => x.1 == d) := by
    rw [List.count, List.countP_map]
    rfl
  rw [← hmap]
  have hle := (List.nodup_iff_count_le_one.mp hnd) d
  have hpos : 0 < (l.map Prod.fst).count d := List.count_pos_iff.mpr hd
  omega

/-- C6: with unique dates in each source, the merged-and-sorted series
contains a date exactly when both sources contain it, carries exactly one
row per such date, and is in non-decreasing date order. -/
theorem preprocessing_inner_join (g p : List (Date × ℚ))
    (hg : (g.map Prod.fst).Nodup) (hp : (p.map Prod.fst).Nodup)
    (_hgne : g ≠ []) (_hpne : p ≠ []) :
    (∀ d : Date, (∃ r ∈ preprocessing g p, r.date = d) ↔
        (d ∈ g.map Prod.fst ∧ d ∈ p.map Prod.fst)) ∧
    (∀ d : Date, d ∈ g.map Prod.fst → d ∈ p.map Prod.fst →
        ((preprocessing g p).filter (fun r => r.date == d)).length = 1) ∧
    (preprocessing g p).Sorted rowLe := by
  have hperm : List.Perm (preprocessing g p) (mergeRows g p) :=
    List.perm_insertionSort rowLe (mergeRows g p)
  refine ⟨?_, ?_, List.sorted_insertionSort rowLe (mergeRows g p)⟩
  · intro d
    constructor
    · rintro ⟨r, hr, rfl⟩
      rw [hperm.mem_iff] at hr
      unfold mergeRows at hr
      rw [List.mem_flatMap] at hr
      obtain ⟨gx, hgx, hr⟩ := hr
      rw [List.mem_map] at hr
      obtain ⟨px, hpx, rfl⟩ := hr
      rw [List.mem_filter] at hpx
      obtain ⟨hpx, heq⟩ := hpx
      have hpq : px.1 = gx.1 := by simpa using heq
      exact ⟨List.mem_map.mpr ⟨gx, hgx, rfl⟩,
        List.mem_map.mpr ⟨px, hpx, hpq⟩⟩
    · rintro ⟨hg', hp'⟩
      rw [List.mem_map] at hg' hp'
      obtain ⟨gx, hgx, rfl⟩ := hg'
      obtain ⟨px, hpx, hpd⟩ := hp'
      refine ⟨⟨gx.1, gx.2, px.2⟩, ?_, rfl⟩
      rw [hperm.mem_iff]
      unfold mergeRows
      rw [List.mem_flatMap]
      exact ⟨gx, hgx, List.mem_map.mpr
        ⟨px, List.mem_filter.mpr ⟨hpx, by simpa using hpd⟩, rfl⟩⟩
  · intro d hdg hdp
    have hcnt : ((preprocessing g p).filter (fun r => r.date == d)).length =
        ((mergeRows g p).filter (fun r => r.date == d)).length := by
      rw [← List.countP_eq_length_filter, ← List.countP_eq_length_filter]
      exact hperm.countP_eq _
    rw [hcnt, mergeRows_filter_length, filter_fst_eq_length_one hg hdg,
      filter_fst_eq_length_one hp hdp]

theorem preprocessing_inner_join_witness :
    ((preprocessing [(⟨2021, 1, 2⟩, 3), (⟨2021, 1, 1⟩, 1)]
        [(⟨2021, 1, 2⟩, 80)]).filter
      (fun r => r.date == ⟨2021, 1, 2⟩)).length = 1 ∧
    (preprocessing [(⟨2021, 1, 2⟩, 3), (⟨2021, 1, 1⟩, 1)]
        [(⟨2021, 1, 2⟩, 80)]).Sorted rowLe :=
  ⟨(preprocessing_inner_join [(⟨2021, 1, 2⟩, 3), (⟨2021, 1, 1⟩, 1)]
      [(⟨2021, 1, 2⟩, 80)] (by decide) (by decide) (by decide)
      (by decide)).2.1 ⟨2021, 1, 2⟩ (by decide) (by decide),
   (preprocessing_inner_join [(⟨2021, 1, 2⟩, 3), (⟨2021, 1, 1⟩, 1)]
      [(⟨2021, 1, 2⟩, 80)] (by decide) (by decide) (by decide)
      (by decide)).2.2⟩

/-- If any discovered file's frame raises, the walker loop raises. -/
theorem collectFrames_error_of_mem (parse : String → Option Date)
    (l : List CsvFile) (f : CsvFile) (hf : f ∈ l) (msg : String)
    (he : readFrame parse f = Except.error msg) :
    ∃ m, collectFrames parse l = Except.error m := by
  induction l with
  | nil => cases hf
  | cons a t ih =>
    rcases List.mem_cons.mp hf with rfl | hmem
    · exact ⟨msg, by unfold collectFrames; rw [he]⟩
    · unfold collectFrames
      cases ha : readFrame parse a with
      | error e => exact ⟨e, rfl⟩
      | ok fr =>
        obtain ⟨m, hm⟩ := ih hmem
        rw [hm]
        exact ⟨m, rfl⟩

/-- C8 counterexample: a `.csv` file that has a 'Date' column but no
value column and zero data rows is loaded without complaint — the walker
returns an empty frame rather than failing, contradicting the claim that
a missing value column or zero parseable rows aborts the run. -/
theorem csvWalker_no_value_column_ok :
    csvWalker demoParse [⟨"a.csv", [("Date", [])]⟩] =
      Except.ok [([], ⟨"a.csv", [("Date", [])]⟩)] := rfl

/-- C8 amended: the loader fails whenever a discovered `.csv` file lacks
the 'Date' column, whenever one of its date strings is unparseable, and
whenever the directory tree yields no `.csv` file at all; it performs no
check on the value column or on the number of data rows. -/
theorem csvWalker_failure_modes (parse : String → Option Date)
    (files : List CsvFile) :
    ((∃ f ∈ files, strEndsWith f.name ".csv" = true ∧
        lookupCol f.cols "Date" = none) →
      ∃ m, csvWalker parse files = Except.error m) ∧
    ((∃ f ∈ files, strEndsWith f.name ".csv" = true ∧
        ∃ cells, lookupCol f.cols "Date" = some cells ∧
          cells.mapM parse = none) →
      ∃ m, csvWalker parse files = Except.error m) ∧
    (files.filter (fun f => strEndsWith f.name ".csv") = [] →
      csvWalker parse files =
        Except.error "ValueError: No objects to concatenate") := by
  refine ⟨?_, ?_, ?_⟩
  · rintro ⟨f, hfmem, hcsv, hnone⟩
    have hmem : f ∈ files.filter (fun f => strEndsWith f.name ".csv") :=
      List.mem_filter.mpr ⟨hfmem, hcsv⟩
    have herr : readFrame parse f =
        Except.error ("KeyError: Date in " ++ f.name) := by
      unfold readFrame
      rw [hnone]
    obtain ⟨m, hm⟩ := collectFrames_error_of_mem parse _ f hmem _ herr
    exact ⟨m, by unfold csvWalker; rw [hm]⟩
  · rintro ⟨f, hfmem, hcsv, cells, hsome, hnoparse⟩
    have hmem : f ∈ files.filter (fun f => strEndsWith f.name ".csv") :=
      List.mem_filter.mpr ⟨hfmem, hcsv⟩
    have herr : readFrame parse f =
        Except.error ("ParseError: unparseable date in " ++ f.name) := by
      unfold readFrame
      simp only [hsome, hnoparse]
    obtain ⟨m, hm⟩ := collectFrames_error_of_mem parse _ f hmem _ herr
    exact ⟨m, by unfold csvWalker; rw [hm]⟩
  · intro h
    unfold csvWalker
    rw [h]
    rfl

theorem csvWalker_failure_modes_witness :
    csvWalker demoParse [⟨"notes.txt", []⟩] =
      Except.error "ValueError: No objects to concatenate" :=
  (csvWalker_failure_modes demoParse [⟨"notes.txt", []⟩]).2.2 (by decide)

/-- C10: the walker's outcome depends only on the files whose name ends
in '.csv' — every other file is skipped, and a directory holding only
non-CSV files behaves exactly like an empty directory. -/
theorem csvWalker_only_csv (parse : String → Option Date)
    (files : List CsvFile) :
    csvWalker parse files =
      csvWalker parse (files.filter (fun f => strEndsWith f.name ".csv")) ∧
    ((∀ f ∈ files, strEndsWith f.name ".csv" = false) →
      csvWalker parse files = csvWalker parse []) := by
  constructor
  · unfold csvWalker
    rw [List.filter_filter]
    simp
  · intro h
    unfold csvWalker
    rw [List.filter_eq_nil_iff.mpr (fun f hf => by simp [h f hf])]
    rfl

theorem csvWalker_only_csv_witness :
    csvWalker demoParse [⟨"readme.md", [("Date", ["2021-01-01"])]⟩] =
      csvWalker demoParse [] :=
  (csvWalker_only_csv demoParse
    [⟨"readme.md", [("Date", ["2021-01-01"])]⟩]).2 (by decide)
